import Mathlib

/-!
# NeriaAI — shallow embedding and verification

This file embeds the core pure logic of the NeriaAI multi-agent pipeline
(`src/agents/validation_agent.py`, `src/agents/capsule_agent.py`,
`src/agents/research_agent.py`, `src/agents/query_router_agent.py`) as
executable Lean definitions and proves properties of them.

Conventions used throughout the embedding:

* Python floats carrying validation scores, confidences and similarity values
  are modelled as rationals (`ℚ`); all score arithmetic in the source uses
  short decimal literals, which the rationals represent exactly.
* Python `datetime.now(timezone.utc).isoformat()` values are modelled as
  opaque `String` parameters: each call site of the clock becomes one
  explicit argument.
* Python dictionaries holding documents are modelled as association lists;
  disk I/O is modelled as pure state passing over those lists, with a
  `malformed` constructor standing for a stored file whose JSON parsing or
  key access raises inside a `try` block.
* The small regular expressions used by the validators are embedded as
  character-list scanners with the exact semantics of the Python patterns
  (word boundaries `\b` over `[A-Za-z0-9_]`, `.` not matching newline,
  `re.MULTILINE` anchors, greedy counting for `re.findall`).
-/

/-! ## Character and string primitives -/

/-- Python regex word characters (`\w`), as used by this repository's
ASCII-based keyword checks. -/
def isWordChar (c : Char) : Bool := c.isAlphanum || c == '_'

/-- Whitespace matched by Python's `\s` and stripped by `str.strip()`. -/
def isPySpace (c : Char) : Bool :=
  c == ' ' || c == '\t' || c == '\n' || c == '\r' || c == '\x0b' || c == '\x0c'

/-- Does the first list start with the second one? -/
def charsStartWith : List Char → List Char → Bool
  | _, [] => true
  | [], _ :: _ => false
  | a :: as, b :: bs => a == b && charsStartWith as bs

/-- Plain substring containment on character lists (Python's
`needle in haystack`). -/
def charsContain (hay needle : List Char) : Bool :=
  match hay with
  | [] => charsStartWith [] needle
  | c :: rest => charsStartWith (c :: rest) needle || charsContain rest needle

/-- Python's `needle in haystack` on strings. -/
def strContains (hay needle : String) : Bool := charsContain hay.data needle.data

/-- ASCII `str.lower()` on one character (the repository's keyword matching
is ASCII-only, so the full Unicode case map of Python is not needed). -/
def lowerChar (c : Char) : Char :=
  if 'A' ≤ c && c ≤ 'Z' then Char.ofNat (c.toNat + 32) else c

/-- Model of `str.lower()`. -/
def strLower (s : String) : String := ⟨s.data.map lowerChar⟩

/-- Helper for `splitLines`, accumulating the current line reversed. -/
def splitLinesAux (acc : List Char) : List Char → List (List Char)
  | [] => [acc.reverse]
  | c :: rest =>
    if c == '\n' then acc.reverse :: splitLinesAux [] rest
    else splitLinesAux (c :: acc) rest

/-- The lines of a string (`str.split('\n')`), the units within which a
non-`re.DOTALL` `.` and the `re.MULTILINE` anchors operate. -/
def splitLines (s : String) : List (List Char) := splitLinesAux [] s.data

/-- Model of `str.strip()`: drop leading and trailing whitespace, as characters. -/
def pyStrip (s : String) : List Char :=
  ((s.data.dropWhile isPySpace).reverse.dropWhile isPySpace).reverse

/-- Helper for `pySplitWs`, accumulating the current word reversed. -/
def pySplitWsAux (acc : List Char) : List Char → List (List Char)
  | [] => if acc.isEmpty then [] else [acc.reverse]
  | c :: rest =>
    if isPySpace c then
      if acc.isEmpty then pySplitWsAux [] rest
      else acc.reverse :: pySplitWsAux [] rest
    else pySplitWsAux (c :: acc) rest

/-- Python `str.split()` with no argument: split on whitespace runs,
producing no empty pieces. -/
def pySplitWs (s : String) : List (List Char) := pySplitWsAux [] s.data

/-- Helper for `wordRuns`, accumulating the current `\w`-run reversed. -/
def wordRunsAux (acc : List Char) : List Char → List (List Char)
  | [] => if acc.isEmpty then [] else [acc.reverse]
  | c :: rest =>
    if isWordChar c then wordRunsAux (c :: acc) rest
    else if acc.isEmpty then wordRunsAux [] rest
    else acc.reverse :: wordRunsAux [] rest

/-- Maximal runs of word characters in a character list. -/
def wordRuns (l : List Char) : List (List Char) := wordRunsAux [] l

/-- Model of `set(re.findall(r'\b\w{4,}\b', s))`: the distinct maximal word runs of
length at least 4. -/
def wordsAtLeast4 (s : String) : List (List Char) :=
  ((wordRuns s.data).filter (fun w => 4 ≤ w.length)).eraseDups

/-- Is there a word boundary (`\b`) before a word character, given the
character immediately to the left (`none` = start of text)? -/
def boundaryBefore : Option Char → Bool
  | none => true
  | some c => !isWordChar c

/-- Is there a word boundary (`\b`) after a word character, given the rest of
the text to the right? -/
def boundaryAfter : List Char → Bool
  | [] => true
  | c :: _ => !isWordChar c

/-- Model of `re.search(r'\b(w1|w2|...)\b', hay)` where every `wi` starts and ends with
a word character; `prev` is the character immediately before `hay`. -/
def hasWordFrom (needles : List (List Char)) : Option Char → List Char → Bool
  | _, [] => false
  | prev, c :: rest =>
    (boundaryBefore prev &&
      needles.any (fun n =>
        charsStartWith (c :: rest) n && boundaryAfter ((c :: rest).drop n.length)))
    || hasWordFrom needles (some c) rest

/-- Model of `re.search(r'\b(negs)\b.*\b(poss)\b', line)` on a single line: a whole
word from `negs` followed (later on the same line) by a whole word from
`poss`. -/
def hasWordThenWord (negs poss : List (List Char)) : Option Char → List Char → Bool
  | _, [] => false
  | prev, c :: rest =>
    (boundaryBefore prev &&
      negs.any (fun n =>
        charsStartWith (c :: rest) n && boundaryAfter ((c :: rest).drop n.length) &&
        hasWordFrom poss n.getLast? ((c :: rest).drop n.length)))
    || hasWordThenWord negs poss (some c) rest

/-- Digits `1`-`9`. -/
def isDigit19 (c : Char) : Bool := '1' ≤ c && c ≤ '9'

/-- After at least one whitespace character already seen: more whitespace and
then a digit `1`-`9` (the tail of `\s+[1-9]`). -/
def afterOneSpace : List Char → Bool
  | [] => false
  | c :: rest => isDigit19 c || (isPySpace c && afterOneSpace rest)

/-- Model of `\s+[1-9]` at the head of the list. -/
def wsThenDigit19 : List Char → Bool
  | [] => false
  | c :: rest => isPySpace c && afterOneSpace rest

/-- Model of `re.search(r'\b[1-9]\.|step\s+[1-9]', s, re.IGNORECASE)` over lowered
text: a boundary-preceded digit followed by a dot, or the literal `step`
followed by whitespace and a digit. -/
def hasNumberedMark : Option Char → List Char → Bool
  | _, [] => false
  | prev, c :: rest =>
    (boundaryBefore prev && isDigit19 c && rest.head? == some '.')
    || (charsStartWith (c :: rest) ['s', 't', 'e', 'p'] && wsThenDigit19 ((c :: rest).drop 4))
    || hasNumberedMark (some c) rest

/-- Does a line start with `-`, `*` or `•` (one alternative of the
`re.MULTILINE` pattern `^[-*•]`)? -/
def lineStartsBullet (line : List Char) : Bool :=
  match line with
  | [] => false
  | c :: _ => c == '-' || c == '*' || c == '•'

/-- Model of `re.search(r'^[-*•]', s, re.MULTILINE)`. -/
def hasBulletStart (s : String) : Bool := (splitLines s).any lineStartsBullet

/-- Length of the maximal run of characters satisfying `p` at the head. -/
def runLength (p : Char → Bool) : List Char → Nat
  | [] => 0
  | c :: rest => if p c then runLength p rest + 1 else 0

/-- Match `#+\s+` at the head of the list; consumed length on success. -/
def hashWsLen (l : List Char) : Option Nat :=
  let h := runLength (fun c => c == '#') l
  if h == 0 then none
  else
    let w := runLength isPySpace (l.drop h)
    if w == 0 then none else some (h + w)

/-- Match `\d+\.` at the head of the list; consumed length on success. -/
def digitsDotLen (l : List Char) : Option Nat :=
  let d := runLength Char.isDigit l
  if d == 0 then none
  else if (l.drop d).head? == some '.' then some (d + 1) else none

/-- Match `[-*•]\s+` at the head of the list; consumed length on success. -/
def bulletWsLen (l : List Char) : Option Nat :=
  match l with
  | [] => none
  | c :: rest =>
    if c == '-' || c == '*' || c == '•' then
      let w := runLength isPySpace rest
      if w == 0 then none else some (1 + w)
    else none

/-- One match attempt of `(^|\n)#+\s+|\d+\.|^[-*•]\s+` at the current
position, with `re`'s left-to-right alternative priority. `atStart` records
whether the position is the start of the text or follows a newline
(`re.MULTILINE` `^`). -/
def sectionMatchLen (atStart : Bool) (l : List Char) : Option Nat :=
  (if atStart then hashWsLen l else none).orElse (fun _ =>
    (match l with
     | '\n' :: rest => (hashWsLen rest).map (· + 1)
     | _ => none).orElse (fun _ =>
      (digitsDotLen l).orElse (fun _ =>
        if atStart then bulletWsLen l else none)))

/-- Model of `len(re.findall(r'(^|\n)#+\s+|\d+\.|^[-*•]\s+', s, re.MULTILINE))`:
count non-overlapping matches scanning left to right. Every step consumes at
least one character, so a fuel of the list length is enough; the fuel only
makes the recursion structural. -/
def countSectionsAux (fuel : Nat) (atStart : Bool) (l : List Char) : Nat :=
  match fuel with
  | 0 => 0
  | fuel + 1 =>
    match l with
    | [] => 0
    | c :: rest =>
      match sectionMatchLen atStart (c :: rest) with
      | some k =>
        1 + countSectionsAux fuel (((c :: rest).take k).getLast? == some '\n') (rest.drop (k - 1))
      | none => countSectionsAux fuel (c == '\n') rest

/-- Section-marker count of a text (completeness check 7). -/
def countSections (s : String) : Nat := countSectionsAux s.data.length true s.data

/-! ## SHA-256 (`hashlib.sha256`), over `Nat` words reduced mod `2 ^ 32` -/

/-- Model of `2 ^ 32`, the modulus for 32-bit word arithmetic. -/
def M32 : Nat := 4294967296

/-- Rotate a 32-bit word right by `k` bits. -/
def rotr32 (x k : Nat) : Nat := (x >>> k ||| x <<< (32 - k)) % M32

/-- SHA-256 `Σ0`. -/
def bigSigma0 (x : Nat) : Nat := rotr32 x 2 ^^^ rotr32 x 13 ^^^ rotr32 x 22

/-- SHA-256 `Σ1`. -/
def bigSigma1 (x : Nat) : Nat := rotr32 x 6 ^^^ rotr32 x 11 ^^^ rotr32 x 25

/-- SHA-256 `σ0`. -/
def smallSigma0 (x : Nat) : Nat := rotr32 x 7 ^^^ rotr32 x 18 ^^^ (x >>> 3)

/-- SHA-256 `σ1`. -/
def smallSigma1 (x : Nat) : Nat := rotr32 x 17 ^^^ rotr32 x 19 ^^^ (x >>> 10)

/-- SHA-256 `Ch(x,y,z)`; `¬x` is `x ^^^ 0xffffffff` on 32-bit words. -/
def ch32 (x y z : Nat) : Nat := (x &&& y) ^^^ ((x ^^^ 4294967295) &&& z)

/-- SHA-256 `Maj(x,y,z)`. -/
def maj32 (x y z : Nat) : Nat := (x &&& y) ^^^ (x &&& z) ^^^ (y &&& z)

/-- The 64 SHA-256 round constants. -/
def sha256K : List Nat :=
  [1116352408, 1899447441, 3049323471, 3921009573, 961987163,
   1508970993, 2453635748, 2870763221, 3624381080, 310598401,
   607225278, 1426881987, 1925078388, 2162078206, 2614888103,
   3248222580, 3835390401, 4022224774, 264347078, 604807628,
   770255983, 1249150122, 1555081692, 1996064986, 2554220882,
   2821834349, 2952996808, 3210313671, 3336571891, 3584528711,
   113926993, 338241895, 666307205, 773529912, 1294757372,
   1396182291, 1695183700, 1986661051, 2177026350, 2456956037,
   2730485921, 2820302411, 3259730800, 3345764771, 3516065817,
   3600352804, 4094571909, 275423344, 430227734, 506948616,
   659060556, 883997877, 958139571, 1322822218, 1537002063,
   1747873779, 1955562222, 2024104815, 2227730452, 2361852424,
   2428436474, 2756734187, 3204031479, 3329325298]

/-- The initial SHA-256 hash state. -/
def sha256H0 : List Nat :=
  [1779033703, 3144134277, 1013904242, 2773480762,
   1359893119, 2600822924, 528734635, 1541459225]

/-- Big-endian byte serialisation of `n` on `k` bytes. -/
def natToBytesBE (n k : Nat) : List Nat :=
  (List.range k).map (fun i => (n >>> (8 * (k - 1 - i))) % 256)

/-- SHA-256 message padding: `0x80`, zeros to 56 mod 64, 8-byte bit length. -/
def sha256Pad (msg : List Nat) : List Nat :=
  msg ++ [0x80] ++ List.replicate ((119 - msg.length % 64) % 64) 0 ++
    natToBytesBE (msg.length * 8) 8

/-- Big-endian 32-bit word from up to four bytes. -/
def bytesToWordBE (l : List Nat) : Nat := l.foldl (fun a b => a * 256 + b) 0

/-- The sixteen 32-bit words of one 64-byte block. -/
def chunkWords (block : List Nat) : List Nat :=
  (List.range 16).map (fun i => bytesToWordBE ((block.drop (4 * i)).take 4))

/-- Extend the message schedule by `k` further words. -/
def extendSchedule : Nat → List Nat → List Nat
  | 0, w => w
  | k + 1, w =>
    let t := w.length
    let nw := (smallSigma1 (w.getD (t - 2) 0) + w.getD (t - 7) 0 +
      smallSigma0 (w.getD (t - 15) 0) + w.getD (t - 16) 0) % M32
    extendSchedule k (w ++ [nw])

/-- One SHA-256 compression round on the state `[a,b,c,d,e,f,g,h]`. -/
def sha256Compress (st : List Nat) (k w : Nat) : List Nat :=
  match st with
  | [a, b, c, d, e, f, g, h] =>
    let t1 := (h + bigSigma1 e + ch32 e f g + k + w) % M32
    let t2 := (bigSigma0 a + maj32 a b c) % M32
    [(t1 + t2) % M32, a, b, c, (d + t1) % M32, e, f, g]
  | _ => st

/-- Process one 64-byte block. -/
def sha256Block (h : List Nat) (block : List Nat) : List Nat :=
  let w := extendSchedule 48 (chunkWords block)
  let st := (sha256K.zip w).foldl (fun s kw => sha256Compress s kw.1 kw.2) h
  (h.zip st).map (fun p => (p.1 + p.2) % M32)

/-- Split a byte list into 64-byte blocks; the fuel (at least the number of
blocks) only makes the recursion structural. -/
def splitBlocksAux (fuel : Nat) (l : List Nat) : List (List Nat) :=
  match fuel, l with
  | 0, _ => []
  | _, [] => []
  | fuel + 1, c :: rest => (c :: rest).take 64 :: splitBlocksAux fuel (rest.drop 63)

/-- Split a byte list into 64-byte blocks. -/
def splitBlocks (l : List Nat) : List (List Nat) := splitBlocksAux l.length l

/-- The eight 32-bit words of the SHA-256 digest of a byte sequence. -/
def sha256Words (msg : List Nat) : List Nat :=
  (splitBlocks (sha256Pad msg)).foldl sha256Block sha256H0

/-- Lower-case hexadecimal digit. -/
def hexDigit (n : Nat) : Char := if n < 10 then Char.ofNat (48 + n) else Char.ofNat (87 + n)

/-- Eight hex digits of one 32-bit word, most significant first. -/
def wordToHex (n : Nat) : List Char :=
  (List.range 8).map (fun i => hexDigit ((n >>> (4 * (7 - i))) % 16))

/-- Model of `hashlib.sha256(bytes).hexdigest()`. -/
def sha256Hex (msg : List Nat) : String := ⟨((sha256Words msg).map wordToHex).flatten⟩

/-- UTF-8 bytes of one character. -/
def charUtf8 (c : Char) : List Nat :=
  let n := c.toNat
  if n < 0x80 then [n]
  else if n < 0x800 then [0xc0 + n / 64, 0x80 + n % 64]
  else if n < 0x10000 then [0xe0 + n / 4096, 0x80 + (n / 64) % 64, 0x80 + n % 64]
  else [0xf0 + n / 262144, 0x80 + (n / 4096) % 64, 0x80 + (n / 64) % 64, 0x80 + n % 64]

/-- Python `str.encode()`: UTF-8 bytes of a string. -/
def utf8Bytes (s : String) : List Nat := (s.data.map charUtf8).flatten

/-- Model of `generate_capsule_id` (`capsule_agent.py`): the first 16 hex characters of
the SHA-256 of `f"{query}_{reasoning_type}_{instant}"`, where `instant` is the
`datetime.now(timezone.utc).isoformat()` value read inside the function. -/
def generateCapsuleId (query reasoningType instant : String) : String :=
  let content := query ++ "_" ++ reasoningType ++ "_" ++ instant
  ⟨(sha256Hex (utf8Bytes content)).data.take 16⟩

/-! ## Validation agent (`validation_agent.py`): data model -/

/-- Model of `ValidatorDecision` enum. -/
inductive ValidatorDecision
  | approve
  | reject
  | needsRevision
deriving DecidableEq, Repr

/-- Model of `ValidationStatus` enum. -/
inductive ValidationStatus
  | pending
  | approved
  | revisionRequested
  | rejected
  | inReview
  | verified
deriving DecidableEq, Repr

/-- The `metta_knowledge_used` sub-dictionary: `patterns` and `domain_rules`
lists (entries are opaque strings here; only their counts are inspected). -/
structure MettaKnowledge where
  patterns : List String
  domain_rules : List String
deriving DecidableEq, Repr

/-- A reasoning chain, as the dictionary consumed by the validators.
`has_research_context` is `metadata.get('has_research_context', False)`;
`metta_knowledge_used = none` models a missing or empty (falsy) dictionary,
while `some mk` models a non-empty one, with `patterns`/`domain_rules`
defaulting to `[]` when the keys are absent. -/
structure ReasoningChain where
  query : String
  reasoning_type : String
  key_concepts : List String
  reasoning_steps : String
  confidence : ℚ
  requires_validation : Bool
  has_research_context : Bool
  metta_knowledge_used : Option MettaKnowledge
deriving DecidableEq, Repr

/-- The `(decision, feedback, confidence_score)` tuple returned by each
validator's `validate`. -/
structure ValidatorOutcome where
  decision : ValidatorDecision
  feedback : String
  score : ℚ
deriving DecidableEq, Repr

/-- Model of `"\n".join(f"  - {issue}" for issue in issues)`. -/
def issueLines (issues : List String) : String :=
  String.intercalate "\n" (issues.map (fun i => "  - " ++ i))

/-- The decision block shared verbatim by the three validators
(validation_agent.py lines 177-191, 271-285 and 381-395), applied to the
already-clamped score: `score >= 0.8 and len(issues) == 0` approves,
`score >= 0.6` asks for revision, anything else rejects. -/
def mapScoreToOutcome (approveMsg reviseHead rejectHead : String)
    (issues : List String) (score : ℚ) : ValidatorOutcome :=
  if 8/10 ≤ score ∧ issues.length = 0 then
    { decision := .approve, feedback := approveMsg, score }
  else if 6/10 ≤ score then
    { decision := .needsRevision, feedback := reviseHead ++ issueLines issues, score }
  else
    { decision := .reject, feedback := rejectHead ++ issueLines issues, score }

/-! ## Logic validator -/

/-- Model of `structure_keywords` of `LogicValidator.validate`. -/
def structureKeywords : List String :=
  ["therefore", "thus", "because", "since", "follows",
   "implies", "consequently", "hence", "step", "first", "then"]

/-- Model of `type_keywords` of `LogicValidator.validate` check 4. -/
def typeKeywords (reasoningType : String) : Option (List String) :=
  if reasoningType == "deductive" then some ["premise", "conclusion", "logic", "follows"]
  else if reasoningType == "inductive" then some ["pattern", "observation", "generalize", "examples"]
  else if reasoningType == "causal" then some ["cause", "effect", "because", "leads to", "results in"]
  else if reasoningType == "comparative" then
    some ["compare", "contrast", "difference", "similarity", "versus"]
  else if reasoningType == "abductive" then
    some ["explanation", "hypothesis", "likely", "best", "explains"]
  else none

/-- Check 3 of `LogicValidator.validate`: one of the three
`contradiction_patterns` pairs has both its negative and its positive pattern
matching (the loop breaks at the first hit, so one penalty at most; a
disjunction captures that). All searches use `re.IGNORECASE`, embedded by
searching the lowered text. The first negative pattern contains `.*`, which
does not match newlines, so it is searched line by line. -/
def logicContradiction (lowSteps : String) : Bool :=
  let negThenCopula := (splitLines lowSteps).any (fun line =>
    hasWordThenWord (["not", "never", "no"].map String.data)
      (["is", "are", "was", "were"].map String.data) none line)
  let hasCopula := hasWordFrom (["is", "are", "was", "were"].map String.data) none lowSteps.data
  (negThenCopula && hasCopula)
    || (hasWordFrom ["false".data] none lowSteps.data &&
        hasWordFrom ["true".data] none lowSteps.data)
    || (hasWordFrom ["cannot".data] none lowSteps.data &&
        hasWordFrom ["can".data] none lowSteps.data)

/-- Checks 1-5 of `LogicValidator.validate`: the accumulated `issues` list and
the raw (unclamped) score. -/
def logicChecks (rc : ReasoningChain) : List String × ℚ :=
  let steps := rc.reasoning_steps
  let low := strLower steps
  let issues : List String := []
  let score : ℚ := 1
  let (issues, score) :=
    if steps.data.isEmpty || (pyStrip steps).length < 50 then
      (issues ++ ["Reasoning steps are too brief or missing"], score - 3/10)
    else (issues, score)
  let foundKeywords := (structureKeywords.filter (fun kw => strContains low (strLower kw))).length
  let (issues, score) :=
    if foundKeywords < 2 then
      (issues ++ ["Reasoning lacks clear logical structure (missing transition words)"],
        score - 2/10)
    else (issues, score)
  let (issues, score) :=
    if logicContradiction low then
      (issues ++ ["Potential logical contradiction detected"], score - 25/100)
    else (issues, score)
  let (issues, score) :=
    match typeKeywords rc.reasoning_type with
    | some expected =>
      if (expected.filter (fun kw => strContains low kw)).length == 0 then
        (issues ++ ["Reasoning doesn\x27t match declared type \x27" ++ rc.reasoning_type ++ "\x27"],
          score - 2/10)
      else (issues, score)
    | none => (issues, score)
  let hasNumbers := hasNumberedMark none low.data
  let hasBullets := hasBulletStart steps
  let (issues, score) :=
    if !hasNumbers && !hasBullets then
      (issues ++ ["Reasoning steps could be more clearly structured"], score - 15/100)
    else (issues, score)
  (issues, score)

/-- Model of `LogicValidator.validate`: clamp the score at 0 from below and map
`(score, issues)` to a decision with feedback. -/
def logicValidate (rc : ReasoningChain) : ValidatorOutcome :=
  mapScoreToOutcome "✅ Logic is coherent and well-structured"
    "⚠️ Logic needs improvement:\n" "❌ Logical issues found:\n"
    (logicChecks rc).1 (max 0 (logicChecks rc).2)

/-! ## Source validator -/

/-- Model of `claim_indicators` of `SourceValidator.validate`. -/
def claimIndicators : List String := ["claim", "assert", "state", "argue", "propose"]

/-- Model of `evidence_indicators` of `SourceValidator.validate`. -/
def evidenceIndicators : List String :=
  ["because", "evidence", "shown", "research", "study",
   "according to", "based on", "demonstrates"]

/-- Model of `hedge_words` of `SourceValidator.validate`; the source lists `unclear`
twice, so a text containing it contributes 2 to the hedging count. -/
def hedgeWords : List String :=
  ["might", "possibly", "perhaps", "unclear", "uncertain",
   "not sure", "don\x27t know", "unclear"]

/-- The alternatives of the check-6 citation regex
`(according to|research|study|paper|source|reference)`. -/
def referenceNeedles : List String :=
  ["according to", "research", "study", "paper", "source", "reference"]

/-- Checks 1-6 of `SourceValidator.validate`: accumulated `issues` and the raw
score (including the check-6 bonus, before clamping). -/
def sourceChecks (rc : ReasoningChain) : List String × ℚ :=
  let steps := rc.reasoning_steps
  let low := strLower steps
  let issues : List String := []
  let score : ℚ := 1
  let (issues, score) :=
    if !rc.has_research_context && rc.metta_knowledge_used.isNone then
      (issues ++ ["No research context or knowledge base references provided"], score - 3/10)
    else (issues, score)
  let (issues, score) :=
    match rc.metta_knowledge_used with
    | some mk =>
      if mk.patterns.length == 0 && mk.domain_rules.length == 0 then
        (issues ++ ["MeTTa knowledge referenced but not utilized"], score - 2/10)
      else (issues, score)
    | none => (issues, score)
  let hasClaims := claimIndicators.any (fun w => strContains low w)
  let hasEvidence := evidenceIndicators.any (fun w => strContains low w)
  let (issues, score) :=
    if hasClaims && !hasEvidence then
      (issues ++ ["Contains claims without supporting evidence"], score - 25/100)
    else (issues, score)
  let hedging := (hedgeWords.filter (fun w => strContains low w)).length
  let (issues, score) :=
    if 3 < hedging then
      (issues ++ ["Excessive uncertainty in reasoning (too many hedge words)"], score - 2/10)
    else (issues, score)
  let (issues, score) :=
    if 8/10 < rc.confidence && !rc.has_research_context && rc.metta_knowledge_used.isNone then
      (issues ++ ["High confidence claim without knowledge base support"], score - 3/10)
    else (issues, score)
  let hasReferences := referenceNeedles.any (fun w => strContains low w)
  let score := if hasReferences then score + 1/10 else score
  (issues, score)

/-- Model of `SourceValidator.validate`: clamp the score into `[0, 1]` and map to a
decision with feedback. -/
def sourceValidate (rc : ReasoningChain) : ValidatorOutcome :=
  mapScoreToOutcome "✅ Facts are well-supported and credible"
    "⚠️ Source validation needs improvement:\n" "❌ Factual concerns found:\n"
    (sourceChecks rc).1 (max 0 (min 1 (sourceChecks rc).2))

/-! ## Completeness validator -/

/-- The alternatives of the check-3 conclusion regex. -/
def conclusionNeedles : List String :=
  ["conclusion", "in summary", "therefore", "thus", "finally", "to conclude"]

/-- Model of `explanation_indicators` of check 5. -/
def explanationIndicators : List String := ["because", "due to", "reason", "cause", "explains"]

/-- Model of `process_indicators` of check 6. -/
def processIndicators : List String := ["step", "first", "then", "next", "process", "method"]

/-- The issue appended by check 4 of `CompletenessValidator.validate`
(lines 351-357): `if len < 200` fires first, so the `elif len < 100` arm,
embedded here verbatim, is unreachable. -/
def completenessBrevityIssues (n : Nat) : List String :=
  if n < 200 then ["Reasoning appears too brief to be complete"]
  else if n < 100 then ["Reasoning is severely lacking in detail"]
  else []

/-- The penalty subtracted by check 4 of `CompletenessValidator.validate`
(lines 351-357), keeping the source's `if len < 200 / elif len < 100`
ordering, under which the 0.4 arm is dead code. -/
def completenessBrevityPenalty (n : Nat) : ℚ :=
  if n < 200 then 25/100
  else if n < 100 then 4/10
  else 0

/-- Checks 1-7 of `CompletenessValidator.validate`: accumulated `issues` and
the raw (unclamped) score. -/
def completenessChecks (rc : ReasoningChain) : List String × ℚ :=
  let query := rc.query
  let steps := rc.reasoning_steps
  let lowQ := strLower query
  let low := strLower steps
  let issues : List String := []
  let score : ℚ := 1
  let (issues, score) :=
    if query.data.isEmpty then (issues ++ ["Original query missing"], score - 3/10)
    else
      let queryWords := wordsAtLeast4 lowQ
      let reasoningWords := wordsAtLeast4 low
      let overlap : ℚ :=
        ((queryWords.filter (fun w => reasoningWords.contains w)).length : ℚ) /
          ((max queryWords.length 1 : Nat) : ℚ)
      if overlap < 3/10 then
        (issues ++ ["Reasoning doesn\x27t address key terms from the query"], score - 25/100)
      else (issues, score)
  let (issues, score) :=
    if rc.key_concepts.isEmpty then (issues, score)
    else
      let mentioned := (rc.key_concepts.filter (fun c => strContains low (strLower c))).length
      let total := rc.key_concepts.length
      let coverage : ℚ := (mentioned : ℚ) / (total : ℚ)
      if coverage < 5/10 then
        (issues ++ ["Only " ++ toString mentioned ++ "/" ++ toString total ++
          " key concepts addressed"], score - 3/10)
      else if coverage < 8/10 then
        (issues ++ ["Some key concepts not fully addressed (" ++ toString mentioned ++ "/" ++
          toString total ++ ")"], score - 15/100)
      else (issues, score)
  let (issues, score) :=
    if conclusionNeedles.any (fun w => strContains low w) then (issues, score)
    else (issues ++ ["Missing clear conclusion or summary"], score - 2/10)
  let (issues, score) :=
    (issues ++ completenessBrevityIssues steps.data.length,
      score - completenessBrevityPenalty steps.data.length)
  let (issues, score) :=
    if strContains lowQ "why" then
      if explanationIndicators.any (fun w => strContains low w) then (issues, score)
      else (issues ++ ["\x27Why\x27 question not adequately explained"], score - 3/10)
    else (issues, score)
  let (issues, score) :=
    if strContains lowQ "how" then
      if processIndicators.any (fun w => strContains low w) then (issues, score)
      else (issues ++ ["\x27How\x27 question not explained as a process"], score - 3/10)
    else (issues, score)
  let (issues, score) :=
    if countSections steps < 2 then
      (issues ++ ["Reasoning lacks detailed step-by-step breakdown"], score - 15/100)
    else (issues, score)
  (issues, score)

/-- Model of `CompletenessValidator.validate`: clamp the score at 0 from below and map
to a decision with feedback. -/
def completenessValidate (rc : ReasoningChain) : ValidatorOutcome :=
  mapScoreToOutcome "✅ Answer is complete and thorough"
    "⚠️ Completeness needs improvement:\n" "❌ Answer is incomplete:\n"
    (completenessChecks rc).1 (max 0 (completenessChecks rc).2)

/-! ## Validation coordinator -/

/-- How many of the three outcomes carry decision `d`. -/
def decisionCount (d : ValidatorDecision) (l s c : ValidatorOutcome) : Nat :=
  (if l.decision = d then 1 else 0) + (if s.decision = d then 1 else 0) +
    (if c.decision = d then 1 else 0)

/-- The dictionary returned by `ValidationCoordinator.validate_reasoning`
(its `timestamp` field, a clock read, is omitted). -/
structure ConsensusResult where
  status : ValidationStatus
  message : String
  logic : ValidatorOutcome
  source : ValidatorOutcome
  completeness : ValidatorOutcome
  approvals : Nat
  rejections : Nat
  revision_requests : Nat
  average_score : ℚ
deriving DecidableEq, Repr

/-- Model of `ValidationCoordinator.validate_reasoning`: run the three validators,
count decisions, and apply the 2-of-3 consensus rule. -/
def validateReasoning (rc : ReasoningChain) : ConsensusResult :=
  let l := logicValidate rc
  let s := sourceValidate rc
  let c := completenessValidate rc
  let approvals := decisionCount .approve l s c
  let rejections := decisionCount .reject l s c
  let revisions := decisionCount .needsRevision l s c
  let statusMessage :=
    if 2 ≤ approvals then
      (ValidationStatus.verified,
        "✅ VERIFIED - " ++ toString approvals ++ "/3 validators approved (consensus reached)!")
    else if 2 ≤ rejections then
      (ValidationStatus.rejected,
        "❌ REJECTED - " ++ toString rejections ++ "/3 validator(s) rejected")
    else
      (ValidationStatus.verified,
        "✅ VERIFIED (with caution) - Mixed results: " ++ toString approvals ++ " approved, " ++
          toString rejections ++ " rejected, " ++ toString revisions ++ " need revision")
  { status := statusMessage.1, message := statusMessage.2, logic := l, source := s,
    completeness := c, approvals, rejections, revision_requests := revisions,
    average_score := (l.score + s.score + c.score) / 3 }

/-- The three dispatch branches of `handle_validation_request` on the
consensus status (validation_agent.py lines 645-694). -/
inductive HandlerBranch
  | verifiedBranch
  | revisionBranch
  | rejectedBranch
deriving DecidableEq, Repr

/-- Which branch of `handle_validation_request` runs for a given consensus
status: `VERIFIED` forwards to the capsule agent, `REVISION_REQUESTED` logs
revision issues, anything else is treated as rejected. -/
def handlerBranchFor (st : ValidationStatus) : HandlerBranch :=
  if st = .verified then .verifiedBranch
  else if st = .revisionRequested then .revisionBranch
  else .rejectedBranch

/-! ## Concrete reasoning chains used as witness inputs -/

/-- A well-formed deductive chain that all three validators approve. -/
def rcAllApprove : ReasoningChain where
  query := "What determines reliable deductive conclusions"
  reasoning_type := "deductive"
  key_concepts := []
  reasoning_steps :=
    "1. Each premise follows directly from the axioms, therefore the first deductive inference is reliable. 2. Since every later step builds on research evidence and on the premise before it, the chain stays valid. Therefore the final conclusion is reliable and the deductive conclusions follow."
  requires_validation := true
  confidence := 7/10
  has_research_context := true
  metta_knowledge_used := none

/-- The degenerate empty chain; every validator rejects it. -/
def rcAllReject : ReasoningChain where
  query := ""
  reasoning_type := "unknown"
  key_concepts := []
  reasoning_steps := ""
  requires_validation := true
  confidence := 9/10
  has_research_context := false
  metta_knowledge_used := none

/-- A chain producing a genuinely mixed outcome: the source validator
approves while logic and completeness ask for revision. -/
def rcMixed : ReasoningChain where
  query := "Compare caching strategies"
  reasoning_type := "comparative"
  key_concepts := []
  reasoning_steps :=
    "Write-through caching keeps data fresh because every update is stored twice, whereas write-back caching delays writes. Therefore the compared strategies differ in durability."
  requires_validation := true
  confidence := 1/2
  has_research_context := true
  metta_knowledge_used := none

/-! ## Capsule agent (`capsule_agent.py`): data model and store -/

/-- The `usage_stats` sub-document of a capsule. -/
structure UsageStats where
  retrieval_count : Nat
  last_retrieved : Option String
  referenced_by : List String
deriving DecidableEq, Repr

/-- A validation proof, restricted to the fields `create_knowledge_capsule`
reads. `validator_id = none` models a proof without a `validator.id` entry
(as produced by `create_validation_proof`), where `.get` falls back to
`'unknown'`. -/
structure ValidationProof where
  status : String
  timestamp : String
  validator_id : Option String
  auto_approved : Bool
deriving DecidableEq, Repr

/-- The `metadata` sub-document of a capsule. -/
structure CapsuleMetadata where
  auto_approved : Bool
  requires_validation : Bool
  tags : List String
  category : String
deriving DecidableEq, Repr

/-- A knowledge capsule document, with the fields written by
`create_knowledge_capsule`. -/
structure Capsule where
  capsule_id : String
  version : String
  created_at : String
  updated_at : String
  query : String
  reasoning_type : String
  key_concepts : List String
  reasoning_chain : ReasoningChain
  reasoning_steps : String
  confidence : ℚ
  validation_proof : ValidationProof
  validation_status : String
  validator_id : String
  validation_timestamp : String
  metta_knowledge_used : Option MettaKnowledge
  usage_stats : UsageStats
  metadata : CapsuleMetadata
deriving DecidableEq, Repr

/-- Model of `create_knowledge_capsule`: populate every write-once field of a capsule;
`usage_stats` starts at zero/`None`. The three `datetime.now` reads — inside
`generate_capsule_id`, for `created_at` and for `updated_at` — become the
parameters `tId`, `tCreated`, `tUpdated`. -/
def createKnowledgeCapsule (rc : ReasoningChain) (vp : ValidationProof)
    (tId tCreated tUpdated : String) : Capsule where
  capsule_id := generateCapsuleId rc.query rc.reasoning_type tId
  version := "1.0"
  created_at := tCreated
  updated_at := tUpdated
  query := rc.query
  reasoning_type := rc.reasoning_type
  key_concepts := rc.key_concepts
  reasoning_chain := rc
  reasoning_steps := rc.reasoning_steps
  confidence := rc.confidence
  validation_proof := vp
  validation_status := vp.status
  validator_id := vp.validator_id.getD "unknown"
  validation_timestamp := vp.timestamp
  metta_knowledge_used := rc.metta_knowledge_used
  usage_stats := { retrieval_count := 0, last_retrieved := none, referenced_by := [] }
  metadata :=
    { auto_approved := vp.auto_approved
      requires_validation := rc.requires_validation
      tags := []
      category := rc.reasoning_type }

/-- A stored capsule file: either a well-formed capsule document, or a file
whose JSON parsing or key access raises inside a `try` (`malformed`). -/
inductive StoredDoc
  | ok (c : Capsule)
  | malformed
deriving DecidableEq, Repr

/-- The capsule storage directory: `(file name, document)` pairs in directory
enumeration order. -/
abbrev CapsuleDir := List (String × StoredDoc)

/-- Read the document stored under a file name (id). -/
def dirLookup : CapsuleDir → String → Option StoredDoc
  | [], _ => none
  | e :: rest, id => if e.1 == id then some e.2 else dirLookup rest id

/-- Create or overwrite the document under a file name (id). -/
def dirWrite : CapsuleDir → String → StoredDoc → CapsuleDir
  | [], id, doc => [(id, doc)]
  | e :: rest, id, doc =>
    if e.1 == id then (id, doc) :: rest else e :: dirWrite rest id doc

/-- Model of `save_capsule`: write the full capsule document keyed by its id, return
`True`. (The `except` path — a disk I/O failure returning `False` with the
directory untouched — is outside this pure model, so the write succeeds.) -/
def saveCapsule (d : CapsuleDir) (c : Capsule) : CapsuleDir × Bool :=
  (dirWrite d c.capsule_id (.ok c), true)

/-- Model of `retrieve_capsule`: look the file up; when present and well-formed, bump
`usage_stats.retrieval_count` by one, set `usage_stats.last_retrieved` to the
clock value `now`, re-persist the document, bump the global
`total_retrievals` stat, and return the updated capsule. A missing file
prints a not-found warning and returns `None` with no state change; a
malformed file raises inside the `try`, which is caught and also returns
`None` with no state change. -/
def retrieveCapsule (d : CapsuleDir) (totalRetrievals : Nat) (id : String)
    (now : String) : Option Capsule × CapsuleDir × Nat :=
  match dirLookup d id with
  | none => (none, d, totalRetrievals)
  | some .malformed => (none, d, totalRetrievals)
  | some (.ok c) =>
    let c' := { c with usage_stats :=
      { retrieval_count := c.usage_stats.retrieval_count + 1
        last_retrieved := some now
        referenced_by := c.usage_stats.referenced_by } }
    (some c', dirWrite d id (.ok c'), totalRetrievals + 1)

/-- One summary row produced by `list_all_capsules`. -/
structure CapsuleSummary where
  capsule_id : String
  query : String
  reasoning_type : String
  confidence : ℚ
  created_at : String
  retrieval_count : Nat
deriving DecidableEq, Repr

/-- The summary fields extracted from one capsule document. -/
def summaryOf (c : Capsule) : CapsuleSummary where
  capsule_id := c.capsule_id
  query := c.query
  reasoning_type := c.reasoning_type
  confidence := c.confidence
  created_at := c.created_at
  retrieval_count := c.usage_stats.retrieval_count

/-- Model of `list_all_capsules`: iterate the stored files in directory order. The
`try` wraps the whole `for` loop, so the first malformed document raises out
of the loop and the summaries accumulated up to that point are returned. -/
def listAllCapsules : CapsuleDir → List CapsuleSummary
  | [] => []
  | (_, .malformed) :: _ => []
  | (_, .ok c) :: rest => summaryOf c :: listAllCapsules rest

/-! ## Research agent (`research_agent.py`): keyword capsule search -/

/-- One result row of `search_knowledge_capsules`. -/
structure SearchResult where
  capsule_id : String
  query : String
  reasoning_type : String
  content : String
  confidence : ℚ
  similarity : ℚ
  timestamp : String
deriving DecidableEq, Repr

/-- Model of `f"{query} {reasoning_steps} {reasoning_type}".lower()`, the searchable
text of one capsule file. -/
def searchableText (c : Capsule) : String :=
  strLower (c.query ++ " " ++ c.reasoning_steps ++ " " ++ c.reasoning_type)

/-- Model of `sum(1 for word in query_words if word in searchable_text)`: how many of
the (possibly repeated) query words occur in the capsule's searchable
text. -/
def keywordMatches (queryWords : List (List Char)) (c : Capsule) : Nat :=
  (queryWords.filter (fun w => charsContain (searchableText c).data w)).length

/-- The result dictionary built for one matching capsule. -/
def searchResultOf (c : Capsule) (sim : ℚ) : SearchResult where
  capsule_id := c.capsule_id
  query := c.query
  reasoning_type := c.reasoning_type
  content := c.reasoning_steps
  confidence := c.confidence
  similarity := sim
  timestamp := c.created_at

/-- The descending-similarity order used to sort search results
(`results.sort(key=lambda x: x['similarity'], reverse=True)`). -/
def simDesc (a b : SearchResult) : Prop := b.similarity ≤ a.similarity

instance : DecidableRel simDesc :=
  fun a b => inferInstanceAs (Decidable (b.similarity ≤ a.similarity))

instance : IsTotal SearchResult simDesc := ⟨fun a b => le_total b.similarity a.similarity⟩

instance : IsTrans SearchResult simDesc := ⟨fun _ _ _ h1 h2 => le_trans h2 h1⟩

/-- Model of `search_knowledge_capsules`: the keyword-overlap fallback search. Each
readable capsule file scores `matches / len(query_words)`; files raising
inside the per-file `try` are skipped (`continue`); results meeting the
similarity threshold are sorted by descending similarity (Python's stable
`sort` with `reverse=True`) and truncated to `top_k`. An empty directory
yields `[]` at the `if not capsule_files` guard. -/
def searchKnowledgeCapsules (d : CapsuleDir) (query : String) (topK : Nat)
    (similarityThreshold : ℚ) : List SearchResult :=
  let queryWords := pySplitWs (strLower query)
  let results := d.filterMap (fun e =>
    match e.2 with
    | .malformed => none
    | .ok c =>
      let nMatches := keywordMatches queryWords c
      if 0 < nMatches then
        let similarity : ℚ := (nMatches : ℚ) / (queryWords.length : ℚ)
        if similarityThreshold ≤ similarity then some (searchResultOf c similarity)
        else none
      else none)
  (List.insertionSort simDesc results).take topK

/-! ## Query router (`query_router_agent.py`): request correlation -/

/-- Model of `QueryType` enum. -/
inductive QueryType
  | simpleFactual
  | complexReasoning
  | validationRequest
  | capsuleLookup
  | unknownQuery
deriving DecidableEq, Repr

/-- The `AGENT_ADDRESSES` configuration; an empty string is an unconfigured
(falsy) address. -/
structure AgentAddresses where
  research : String
  reasoning : String
  validation : String
  capsule : String
deriving DecidableEq, Repr

/-- The module-level `agent_to_user_mapping` dictionary:
specialized-agent address to waiting user address. -/
abbrev RoutingTable := List (String × String)

/-- Python dict assignment `table[k] = v`: overwrite the entry for `k` or
append a new one; it always succeeds. -/
def tableInsert : RoutingTable → String → String → RoutingTable
  | [], k, v => [(k, v)]
  | e :: rest, k, v =>
    if e.1 == k then (k, v) :: rest else e :: tableInsert rest k v

/-- Python `table.get(k)`. -/
def tableGet : RoutingTable → String → Option String
  | [], _ => none
  | e :: rest, k => if e.1 == k then some e.2 else tableGet rest k

/-- A message sent by the router: destination address and message text (the
attached routing metadata is not modelled). -/
structure RouterSend where
  dest : String
  text : String
deriving DecidableEq, Repr

/-- The address `route_to_agent` consults for each query type. -/
def routeTarget (cfg : AgentAddresses) : QueryType → Option String
  | .simpleFactual => some cfg.research
  | .complexReasoning => some cfg.reasoning
  | .validationRequest => some cfg.validation
  | .capsuleLookup => some cfg.capsule
  | .unknownQuery => none

/-- Model of `route_to_agent`: per query type, look up the target address; when it is
configured (non-empty), record — overwriting any prior entry — the waiting
user in `agent_to_user_mapping` and send the query on to the target;
otherwise send an error message back to the user, leaving the table
unchanged. The unknown type only notifies the user. -/
def routeToAgent (cfg : AgentAddresses) (t : RoutingTable) (query : String)
    (qt : QueryType) (userAddress : String) : RoutingTable × List RouterSend :=
  match qt with
  | .simpleFactual =>
    if cfg.research = "" then (t, [⟨userAddress, "Error: Research Agent not available"⟩])
    else (tableInsert t cfg.research userAddress, [⟨cfg.research, query⟩])
  | .complexReasoning =>
    if cfg.reasoning = "" then (t, [⟨userAddress, "Error: Reasoning Agent not available"⟩])
    else (tableInsert t cfg.reasoning userAddress, [⟨cfg.reasoning, query⟩])
  | .validationRequest =>
    if cfg.validation = "" then (t, [⟨userAddress, "Error: Validation Agent not available"⟩])
    else (tableInsert t cfg.validation userAddress, [⟨cfg.validation, query⟩])
  | .capsuleLookup =>
    if cfg.capsule = "" then (t, [⟨userAddress, "Error: Capsule Agent not available"⟩])
    else (tableInsert t cfg.capsule userAddress, [⟨cfg.capsule, query⟩])
  | .unknownQuery =>
    (t, [⟨userAddress, "Unable to classify query. Please rephrase your question."⟩])

/-- The `is_agent_response` test of `handle_chat_message`: the sender is one
of the configured (non-empty) specialized agent addresses. -/
def isAgentResponse (cfg : AgentAddresses) (sender : String) : Bool :=
  (!cfg.research.isEmpty && sender == cfg.research)
    || (!cfg.reasoning.isEmpty && sender == cfg.reasoning)
    || (!cfg.validation.isEmpty && sender == cfg.validation)
    || (!cfg.capsule.isEmpty && sender == cfg.capsule)

/-- The agent-response branch of `handle_chat_message` (lines 329-355): look
up the waiting user for the sending agent and forward the whole message to
them; with no registered mapping, log a warning and drop the response — no
send, no retry. The mapping itself is left unchanged in both cases (the
cleanup `del` is commented out in the source). -/
def forwardAgentResponse (t : RoutingTable) (sender msgText : String) : List RouterSend :=
  match tableGet t sender with
  | some user => [⟨user, msgText⟩]
  | none => []

/-! ## Concrete fixtures used as witness and counterexample inputs -/

/-- A minimal well-formed capsule document used as test data. -/
def plainCapsule (id q steps rtype : String) : Capsule where
  capsule_id := id
  version := "1.0"
  created_at := "2025-01-01T00:00:00+00:00"
  updated_at := "2025-01-01T00:00:00+00:00"
  query := q
  reasoning_type := rtype
  key_concepts := []
  reasoning_chain :=
    { query := q, reasoning_type := rtype, key_concepts := [], reasoning_steps := steps,
      confidence := 1, requires_validation := true, has_research_context := false,
      metta_knowledge_used := none }
  reasoning_steps := steps
  confidence := 1
  validation_proof :=
    { status := "verified", timestamp := "2025-01-01T00:00:00+00:00", validator_id := none,
      auto_approved := false }
  validation_status := "verified"
  validator_id := "unknown"
  validation_timestamp := "2025-01-01T00:00:00+00:00"
  metta_knowledge_used := none
  usage_stats := { retrieval_count := 0, last_retrieved := none, referenced_by := [] }
  metadata := { auto_approved := false, requires_validation := true, tags := [], category := rtype }

/-- Test capsule `capA`. -/
def exCapA : Capsule := plainCapsule "capA" "alpha query" "alpha steps" "deductive"

/-- Test capsule `capC`. -/
def exCapC : Capsule := plainCapsule "capC" "gamma query" "gamma steps" "causal"

/-- A directory with a malformed document between two readable ones. -/
def exBadDir : CapsuleDir :=
  [("capA", StoredDoc.ok exCapA), ("bad", StoredDoc.malformed), ("capC", StoredDoc.ok exCapC)]

/-- A directory holding only `capA`. -/
def exDirA : CapsuleDir := [("capA", StoredDoc.ok exCapA)]

/-- Capsule about neural networks: both query words of the test search occur
in its searchable text. -/
def exCapNN : Capsule :=
  plainCapsule "cap-nn" "neural networks overview"
    "neural networks learn layered representations" "deductive"

/-- Capsule whose searchable text contains `neural` but not `networks`. -/
def exCapG : Capsule :=
  plainCapsule "cap-g" "graph theory basics" "neural nets are mentioned once" "deductive"

/-- Directory for the search witness. -/
def exSearchDir : CapsuleDir := [("f1", StoredDoc.ok exCapNN), ("f2", StoredDoc.ok exCapG)]

/-- The expected single hit of the search witness. -/
def exSearchHit : SearchResult := searchResultOf exCapNN 1

/-- A fully configured router address table. -/
def exRouterCfg : AgentAddresses where
  research := "agent-research"
  reasoning := "agent-reasoning"
  validation := "agent-validation"
  capsule := "agent-capsule"

/-- The summary `list_all_capsules` extracts from one directory entry, when
the entry is readable. -/
def okSummaryEntry (e : String × StoredDoc) : Option CapsuleSummary :=
  match e.2 with
  | .ok c => some (summaryOf c)
  | .malformed => none

/-! ## Helper lemmas -/

theorem charsStartWith_append (n a b : List Char) (h : charsStartWith a n = true) :
    charsStartWith (a ++ b) n = true := by
  induction n generalizing a with
  | nil => cases a <;> simp [charsStartWith]
  | cons d ds ih =>
    cases a with
    | nil => simp [charsStartWith] at h
    | cons c cs =>
      simp only [charsStartWith, Bool.and_eq_true] at h
      simp only [List.cons_append, charsStartWith, Bool.and_eq_true]
      exact ⟨h.1, ih cs h.2⟩

theorem charsContain_nil (l : List Char) : charsContain l [] = true := by
  cases l <;> simp [charsContain, charsStartWith]

theorem charsContain_append_left (a b n : List Char) (h : charsContain a n = true) :
    charsContain (a ++ b) n = true := by
  induction a with
  | nil =>
    simp only [charsContain] at h
    cases n with
    | nil => simpa using charsContain_nil b
    | cons d ds => simp [charsStartWith] at h
  | cons c cs ih =>
    simp only [charsContain, Bool.or_eq_true] at h
    simp only [List.cons_append, charsContain, Bool.or_eq_true]
    rcases h with h | h
    · exact Or.inl (by simpa using charsStartWith_append n (c :: cs) b h)
    · exact Or.inr (ih h)

theorem strContains_append_left (a b n : String) (h : strContains a n = true) :
    strContains (a ++ b) n = true := by
  unfold strContains at h ⊢
  rw [String.data_append]
  exact charsContain_append_left _ _ _ h

theorem dirLookup_dirWrite_self (d : CapsuleDir) (id : String) (doc : StoredDoc) :
    dirLookup (dirWrite d id doc) id = some doc := by
  induction d with
  | nil => simp [dirWrite, dirLookup]
  | cons e rest ih =>
    by_cases he : e.1 == id
    · simp [dirWrite, he, dirLookup]
    · simpa [dirWrite, he, dirLookup] using ih

theorem tableGet_tableInsert_self (t : RoutingTable) (k v : String) :
    tableGet (tableInsert t k v) k = some v := by
  induction t with
  | nil => simp [tableInsert, tableGet]
  | cons e rest ih =>
    by_cases he : e.1 == k
    · simp [tableInsert, he, tableGet]
    · simpa [tableInsert, he, tableGet] using ih

theorem mapScoreToOutcome_score (am rh jh : String) (issues : List String) (score : ℚ) :
    (mapScoreToOutcome am rh jh issues score).score = score := by
  unfold mapScoreToOutcome
  split_ifs <;> rfl

/-! ## Claim theorems -/

/-- C6 (code bug in the source): the completeness brevity check subtracts
0.25 for every reasoning text under 200 characters — including texts under
100 characters, for which the spec prescribes 0.4 — because the
`elif len < 100` arm sits behind the subsuming `if len < 200` and is dead
code. At the failing input (length 50) the penalty is 0.25, not 0.4. -/
theorem completenessBrevityPenalty_eval :
    completenessBrevityPenalty 50 = 25/100 ∧ completenessBrevityPenalty 150 = 25/100 ∧
      completenessBrevityPenalty 250 = 0 ∧
      completenessBrevityIssues 50 = ["Reasoning appears too brief to be complete"] := by
  refine ⟨?_, ?_, ?_, ?_⟩ <;> norm_num [completenessBrevityPenalty, completenessBrevityIssues]

/-- C8 (code bug in the source): `generate_capsule_id` hashes the string
`f"{query}_{reasoning_type}_{instant}"`, and the underscore-joined encoding
is not injective, so the distinct inputs `("a_b", "c")` and `("a", "b_c")`
produce the same capsule id at the same instant — contradicting the
function's promise of a unique, collision-improbable id. -/
theorem generateCapsuleId_collision :
    generateCapsuleId "a_b" "c" "2025-01-01T00:00:00+00:00" =
      generateCapsuleId "a" "b_c" "2025-01-01T00:00:00+00:00" := by
  have h : ("a_b" ++ "_" ++ "c" ++ "_" ++ "2025-01-01T00:00:00+00:00" : String) =
      ("a" ++ "_" ++ "b_c" ++ "_" ++ "2025-01-01T00:00:00+00:00" : String) := by decide
  simp only [generateCapsuleId]
  rw [h]

/-- C10: `validate_reasoning` only ever returns the status `VERIFIED` or
`REJECTED` — never `REVISION_REQUESTED` — so the revision branch of
`handle_validation_request` is unreachable from its output. -/
theorem validateReasoning_no_revision (rc : ReasoningChain) :
    ((validateReasoning rc).status = ValidationStatus.verified ∨
      (validateReasoning rc).status = ValidationStatus.rejected)
    ∧ (validateReasoning rc).status ≠ ValidationStatus.revisionRequested
    ∧ handlerBranchFor (validateReasoning rc).status ≠ HandlerBranch.revisionBranch := by
  have hs : (validateReasoning rc).status = ValidationStatus.verified ∨
      (validateReasoning rc).status = ValidationStatus.rejected := by
    simp only [validateReasoning]
    split_ifs <;> simp
  refine ⟨hs, ?_, ?_⟩ <;> rcases hs with h | h <;> rw [h] <;> simp [handlerBranchFor]

theorem mapScoreToOutcome_decision (am rh jh : String) (issues : List String) (score : ℚ) :
    (8/10 ≤ score ∧ issues = [] →
      (mapScoreToOutcome am rh jh issues score).decision = ValidatorDecision.approve)
    ∧ (6/10 ≤ score ∧ score < 8/10 →
      (mapScoreToOutcome am rh jh issues score).decision = ValidatorDecision.needsRevision)
    ∧ (score < 6/10 →
      (mapScoreToOutcome am rh jh issues score).decision = ValidatorDecision.reject) := by
  unfold mapScoreToOutcome
  split_ifs with h1 h2
  · exact ⟨fun _ => rfl,
      fun h => absurd h.2 (not_lt.mpr h1.1),
      fun h => absurd h (not_lt.mpr (le_trans (by norm_num) h1.1))⟩
  · exact ⟨fun h => absurd ⟨h.1, by simp [h.2]⟩ h1,
      fun _ => rfl,
      fun h => absurd h (not_lt.mpr h2)⟩
  · exact ⟨fun h => absurd (le_trans (by norm_num) h.1) h2,
      fun h => absurd h.1 h2,
      fun _ => rfl⟩

/-- C2: for each of the three checks, the decision mapping over the clamped
score `s` is: `s ≥ 0.8` with no flags triggered gives APPROVE,
`0.6 ≤ s < 0.8` gives NEEDS_REVISION, `s < 0.6` gives REJECT. -/
theorem validator_decision_mapping (rc : ReasoningChain) :
    ((8/10 ≤ (logicValidate rc).score ∧ (logicChecks rc).1 = [] →
        (logicValidate rc).decision = ValidatorDecision.approve)
      ∧ (6/10 ≤ (logicValidate rc).score ∧ (logicValidate rc).score < 8/10 →
        (logicValidate rc).decision = ValidatorDecision.needsRevision)
      ∧ ((logicValidate rc).score < 6/10 →
        (logicValidate rc).decision = ValidatorDecision.reject))
    ∧ ((8/10 ≤ (sourceValidate rc).score ∧ (sourceChecks rc).1 = [] →
        (sourceValidate rc).decision = ValidatorDecision.approve)
      ∧ (6/10 ≤ (sourceValidate rc).score ∧ (sourceValidate rc).score < 8/10 →
        (sourceValidate rc).decision = ValidatorDecision.needsRevision)
      ∧ ((sourceValidate rc).score < 6/10 →
        (sourceValidate rc).decision = ValidatorDecision.reject))
    ∧ ((8/10 ≤ (completenessValidate rc).score ∧ (completenessChecks rc).1 = [] →
        (completenessValidate rc).decision = ValidatorDecision.approve)
      ∧ (6/10 ≤ (completenessValidate rc).score ∧ (completenessValidate rc).score < 8/10 →
        (completenessValidate rc).decision = ValidatorDecision.needsRevision)
      ∧ ((completenessValidate rc).score < 6/10 →
        (completenessValidate rc).decision = ValidatorDecision.reject)) := by
  refine ⟨?_, ?_, ?_⟩
  · unfold logicValidate
    rw [mapScoreToOutcome_score]
    exact mapScoreToOutcome_decision _ _ _ _ _
  · unfold sourceValidate
    rw [mapScoreToOutcome_score]
    exact mapScoreToOutcome_decision _ _ _ _ _
  · unfold completenessValidate
    rw [mapScoreToOutcome_score]
    exact mapScoreToOutcome_decision _ _ _ _ _

set_option maxRecDepth 40000 in
unseal Rat.add Rat.sub Rat.mul Rat.inv in
/-- Witness for C2: the mapping theorem applied at concrete chains hitting
each decision. -/
theorem validator_decision_mapping_witness :
    (logicValidate rcAllApprove).decision = ValidatorDecision.approve
    ∧ (sourceValidate rcAllApprove).decision = ValidatorDecision.approve
    ∧ (completenessValidate rcAllApprove).decision = ValidatorDecision.approve
    ∧ (logicValidate rcAllReject).decision = ValidatorDecision.reject
    ∧ (completenessValidate rcMixed).decision = ValidatorDecision.needsRevision :=
  ⟨(validator_decision_mapping rcAllApprove).1.1 (by decide),
   (validator_decision_mapping rcAllApprove).2.1.1 (by decide),
   (validator_decision_mapping rcAllApprove).2.2.1 (by decide),
   (validator_decision_mapping rcAllReject).1.2.2 (by decide),
   (validator_decision_mapping rcMixed).2.2.2.1 (by decide)⟩

/-- C1: the consensus rule — at least two approvals gives status VERIFIED;
otherwise at least two rejections gives REJECTED; any remaining (mixed) split
gives VERIFIED with a `with caution` qualifier in the message. -/
theorem consensus_rule (rc : ReasoningChain) :
    (2 ≤ (validateReasoning rc).approvals →
      (validateReasoning rc).status = ValidationStatus.verified)
    ∧ ((validateReasoning rc).approvals < 2 → 2 ≤ (validateReasoning rc).rejections →
      (validateReasoning rc).status = ValidationStatus.rejected)
    ∧ ((validateReasoning rc).approvals < 2 → (validateReasoning rc).rejections < 2 →
      (validateReasoning rc).status = ValidationStatus.verified
      ∧ strContains (validateReasoning rc).message "with caution" = true) := by
  simp only [validateReasoning]
  refine ⟨?_, ?_, ?_⟩
  · intro h
    rw [if_pos h]
  · intro h1 h2
    rw [if_neg (by omega), if_pos h2]
  · intro h1 h2
    rw [if_neg (by omega), if_neg (by omega)]
    refine ⟨rfl, ?_⟩
    repeat first
      | exact (by decide)
      | apply strContains_append_left

set_option maxRecDepth 40000 in
unseal Rat.add Rat.sub Rat.mul Rat.inv in
/-- Witness for C1: the consensus rule applied at chains reaching each of the
three branches. -/
theorem consensus_rule_witness :
    (validateReasoning rcAllApprove).status = ValidationStatus.verified
    ∧ (validateReasoning rcAllReject).status = ValidationStatus.rejected
    ∧ ((validateReasoning rcMixed).status = ValidationStatus.verified
      ∧ strContains (validateReasoning rcMixed).message "with caution" = true) :=
  ⟨(consensus_rule rcAllApprove).1 (by decide),
   (consensus_rule rcAllReject).2.1 (by decide) (by decide),
   (consensus_rule rcMixed).2.2 (by decide) (by decide)⟩

/-- C4: retrieving an existing, readable capsule returns it with
`retrieval_count` bumped by exactly one and `last_retrieved` set to the
clock value, re-persists the updated document (it is readable back from the
store), bumps the global retrieval stat, and changes no other capsule field;
an unknown id returns the explicit not-found value `none` with the store and
stats untouched. -/
theorem retrieveCapsule_spec (d : CapsuleDir) (tr : Nat) (id now : String) :
    (∀ c, dirLookup d id = some (StoredDoc.ok c) →
      ∃ c', retrieveCapsule d tr id now = (some c', dirWrite d id (StoredDoc.ok c'), tr + 1)
        ∧ c'.usage_stats.retrieval_count = c.usage_stats.retrieval_count + 1
        ∧ c'.usage_stats.last_retrieved = some now
        ∧ dirLookup (retrieveCapsule d tr id now).2.1 id = some (StoredDoc.ok c')
        ∧ { c' with usage_stats := c.usage_stats } = c)
    ∧ (dirLookup d id = none → retrieveCapsule d tr id now = (none, d, tr)) := by
  constructor
  · intro c h
    have hr : retrieveCapsule d tr id now =
        (some { c with usage_stats := ⟨c.usage_stats.retrieval_count + 1, some now,
            c.usage_stats.referenced_by⟩ },
          dirWrite d id (StoredDoc.ok { c with usage_stats :=
            ⟨c.usage_stats.retrieval_count + 1, some now, c.usage_stats.referenced_by⟩ }),
          tr + 1) := by
      unfold retrieveCapsule
      rw [h]
    refine ⟨_, hr, rfl, rfl, ?_, rfl⟩
    rw [hr]
    exact dirLookup_dirWrite_self d id _
  · intro h
    unfold retrieveCapsule
    rw [h]

/-- Witness for C4: retrieval on a one-capsule store, and on a missing id. -/
theorem retrieveCapsule_spec_witness :
    (∃ c', retrieveCapsule exDirA 0 "capA" "2025-02-02T00:00:00+00:00" =
        (some c', dirWrite exDirA "capA" (StoredDoc.ok c'), 0 + 1)
      ∧ c'.usage_stats.retrieval_count = exCapA.usage_stats.retrieval_count + 1
      ∧ c'.usage_stats.last_retrieved = some "2025-02-02T00:00:00+00:00"
      ∧ dirLookup (retrieveCapsule exDirA 0 "capA" "2025-02-02T00:00:00+00:00").2.1 "capA" =
          some (StoredDoc.ok c')
      ∧ { c' with usage_stats := exCapA.usage_stats } = exCapA)
    ∧ retrieveCapsule exDirA 0 "missing" "2025-02-02T00:00:00+00:00" = (none, exDirA, 0) :=
  ⟨(retrieveCapsule_spec exDirA 0 "capA" "2025-02-02T00:00:00+00:00").1 exCapA (by decide),
   (retrieveCapsule_spec exDirA 0 "missing" "2025-02-02T00:00:00+00:00").2 (by decide)⟩

/-- C5: a capsule built by `create_knowledge_capsule`, persisted with
`save_capsule` and read back with `retrieve_capsule` comes back equal to the
created capsule in every field except `usage_stats`. -/
theorem capsule_roundtrip (rc : ReasoningChain) (vp : ValidationProof)
    (tId tCreated tUpdated now : String) (d : CapsuleDir) (tr : Nat) :
    ∃ c', (retrieveCapsule (saveCapsule d (createKnowledgeCapsule rc vp tId tCreated tUpdated)).1
        tr (createKnowledgeCapsule rc vp tId tCreated tUpdated).capsule_id now).1 = some c'
      ∧ { c' with usage_stats :=
            (createKnowledgeCapsule rc vp tId tCreated tUpdated).usage_stats } =
          createKnowledgeCapsule rc vp tId tCreated tUpdated := by
  set c := createKnowledgeCapsule rc vp tId tCreated tUpdated with hc
  have h : dirLookup (saveCapsule d c).1 c.capsule_id = some (StoredDoc.ok c) := by
    unfold saveCapsule
    exact dirLookup_dirWrite_self _ _ _
  refine ⟨{ c with usage_stats := ⟨c.usage_stats.retrieval_count + 1, some now,
      c.usage_stats.referenced_by⟩ }, ?_, rfl⟩
  have hr : retrieveCapsule (saveCapsule d c).1 tr c.capsule_id now =
      (some { c with usage_stats := ⟨c.usage_stats.retrieval_count + 1, some now,
          c.usage_stats.referenced_by⟩ },
        dirWrite (saveCapsule d c).1 c.capsule_id (StoredDoc.ok { c with usage_stats :=
          ⟨c.usage_stats.retrieval_count + 1, some now, c.usage_stats.referenced_by⟩ }),
        tr + 1) := by
    unfold retrieveCapsule
    rw [h]
  rw [hr]

/-- C7 counterexample: in a directory where a malformed document precedes a
readable one, the readable document after it is missing from the listing, so
listing does not return a summary for every readable document. -/
theorem listAllCapsules_misses_readable :
    ("capC", StoredDoc.ok exCapC) ∈ exBadDir
    ∧ summaryOf exCapC ∉ listAllCapsules exBadDir := by
  refine ⟨by decide, by decide⟩

/-- C7 (amended): listing enumerates the directory in order and stops at the
first unreadable or malformed document without raising: the summaries of the
readable documents before it are returned, and documents after it are
omitted. On an all-readable store every document is summarised. -/
theorem listAllCapsules_stops_at_first_malformed (pre post : CapsuleDir) (name : String)
    (h : ∀ e ∈ pre, ∃ c, e.2 = StoredDoc.ok c) :
    listAllCapsules (pre ++ (name, StoredDoc.malformed) :: post) = pre.filterMap okSummaryEntry
    ∧ listAllCapsules pre = pre.filterMap okSummaryEntry := by
  induction pre with
  | nil => exact ⟨rfl, rfl⟩
  | cons e rest ih =>
    obtain ⟨c, hcc⟩ := h e (List.mem_cons_self _ _)
    obtain ⟨n2, d2⟩ := e
    dsimp at hcc
    subst hcc
    have ih' := ih (fun x hx => h x (List.mem_cons_of_mem _ hx))
    simp [listAllCapsules, okSummaryEntry, ih'.1, ih'.2]

/-- Witness for the amended C7: the example store lists exactly the single
readable document before the malformed one. -/
theorem listAllCapsules_stops_witness :
    listAllCapsules exBadDir = [summaryOf exCapA] := by
  have h := listAllCapsules_stops_at_first_malformed [("capA", StoredDoc.ok exCapA)]
    [("capC", StoredDoc.ok exCapC)] "bad"
    (by
      intro e he
      simp only [List.mem_singleton] at he
      subst he
      exact ⟨exCapA, rfl⟩)
  exact h.1

/-- C9: registering a waiting address for a worker in the correlation table
always succeeds and overwrites any prior mapping (last-write-wins); a
subsequent response from that worker is forwarded to the most recently
registered waiting address; a response from a worker with no mapping is
dropped — not forwarded and not retried. -/
theorem correlation_register_forward (cfg : AgentAddresses) (qt : QueryType)
    (w : String) (t : RoutingTable) (q1 q2 u1 u2 m : String)
    (hw : routeTarget cfg qt = some w) (hne : w ≠ "") :
    tableGet (routeToAgent cfg (routeToAgent cfg t q1 qt u1).1 q2 qt u2).1 w = some u2
    ∧ forwardAgentResponse (routeToAgent cfg (routeToAgent cfg t q1 qt u1).1 q2 qt u2).1 w m
        = [⟨u2, m⟩]
    ∧ (∀ t' : RoutingTable, tableGet t' w = none → forwardAgentResponse t' w m = []) := by
  have key : ∀ (t0 : RoutingTable) (q u : String),
      (routeToAgent cfg t0 q qt u).1 = tableInsert t0 w u := by
    intro t0 q u
    cases qt <;> simp_all [routeTarget, routeToAgent]
  rw [key, key]
  refine ⟨tableGet_tableInsert_self _ _ _, ?_, ?_⟩
  · unfold forwardAgentResponse
    rw [tableGet_tableInsert_self]
  · intro t' h
    unfold forwardAgentResponse
    rw [h]

/-- Witness for C9: two routings to the research agent followed by a
response, and a response with no registered mapping. -/
theorem correlation_register_forward_witness :
    tableGet (routeToAgent exRouterCfg
        (routeToAgent exRouterCfg [] "q1" QueryType.simpleFactual "user-1").1
        "q2" QueryType.simpleFactual "user-2").1 "agent-research" = some "user-2"
    ∧ forwardAgentResponse (routeToAgent exRouterCfg
        (routeToAgent exRouterCfg [] "q1" QueryType.simpleFactual "user-1").1
        "q2" QueryType.simpleFactual "user-2").1 "agent-research" "answer" =
        [⟨"user-2", "answer"⟩]
    ∧ forwardAgentResponse [] "agent-research" "answer" = [] :=
  ⟨(correlation_register_forward exRouterCfg QueryType.simpleFactual "agent-research" []
      "q1" "q2" "user-1" "user-2" "answer" (by decide) (by decide)).1,
   (correlation_register_forward exRouterCfg QueryType.simpleFactual "agent-research" []
      "q1" "q2" "user-1" "user-2" "answer" (by decide) (by decide)).2.1,
   (correlation_register_forward exRouterCfg QueryType.simpleFactual "agent-research" []
      "q1" "q2" "user-1" "user-2" "answer" (by decide) (by decide)).2.2 [] (by decide)⟩

/-- C3: the keyword-fallback capsule search returns only results built from
readable stored capsules whose similarity equals
`matches / len(query_words)` and meets the threshold, sorted in descending
similarity order, with at most `top_k` results; an empty store yields the
empty sequence for every query and threshold. -/
theorem searchKnowledgeCapsules_spec (d : CapsuleDir) (query : String) (topK : Nat) (thr : ℚ) :
    (∀ r ∈ searchKnowledgeCapsules d query topK thr,
      ∃ name c, (name, StoredDoc.ok c) ∈ d
        ∧ r = searchResultOf c
            ((keywordMatches (pySplitWs (strLower query)) c : ℚ) /
              ((pySplitWs (strLower query)).length : ℚ))
        ∧ r.similarity =
            (keywordMatches (pySplitWs (strLower query)) c : ℚ) /
              ((pySplitWs (strLower query)).length : ℚ)
        ∧ thr ≤ r.similarity)
    ∧ List.Sorted simDesc (searchKnowledgeCapsules d query topK thr)
    ∧ (searchKnowledgeCapsules d query topK thr).length ≤ topK
    ∧ (d = [] → searchKnowledgeCapsules d query topK thr = []) := by
  refine ⟨?_, ?_, ?_, ?_⟩
  · intro r hr
    unfold searchKnowledgeCapsules at hr
    have hr1 := (List.mem_insertionSort simDesc).mp (List.mem_of_mem_take hr)
    obtain ⟨e, he, hfe⟩ := List.mem_filterMap.mp hr1
    obtain ⟨name, doc⟩ := e
    cases doc with
    | malformed => simp at hfe
    | ok c =>
      refine ⟨name, c, he, ?_⟩
      dsimp only at hfe
      by_cases h1 : 0 < keywordMatches (pySplitWs (strLower query)) c
      · rw [if_pos h1] at hfe
        by_cases h2 : thr ≤ (keywordMatches (pySplitWs (strLower query)) c : ℚ) /
            ((pySplitWs (strLower query)).length : ℚ)
        · rw [if_pos h2] at hfe
          injection hfe with hfe
          subst hfe
          exact ⟨rfl, rfl, h2⟩
        · rw [if_neg h2] at hfe
          exact absurd hfe (by simp)
      · rw [if_neg h1] at hfe
        exact absurd hfe (by simp)
  · unfold searchKnowledgeCapsules
    exact List.Pairwise.sublist (List.take_sublist _ _) (List.sorted_insertionSort _ _)
  · unfold searchKnowledgeCapsules
    rw [List.length_take]
    exact min_le_left _ _
  · intro h
    subst h
    simp [searchKnowledgeCapsules]

set_option maxRecDepth 40000 in
unseal Rat.add Rat.sub Rat.mul Rat.inv in
/-- Witness for C3: the two-capsule store where only `cap-nn` meets the 0.6
threshold for the query `neural networks`, and the empty store. -/
theorem searchKnowledgeCapsules_spec_witness :
    (∃ name c, (name, StoredDoc.ok c) ∈ exSearchDir
      ∧ exSearchHit = searchResultOf c
          ((keywordMatches (pySplitWs (strLower "neural networks")) c : ℚ) /
            ((pySplitWs (strLower "neural networks")).length : ℚ))
      ∧ exSearchHit.similarity =
          (keywordMatches (pySplitWs (strLower "neural networks")) c : ℚ) /
            ((pySplitWs (strLower "neural networks")).length : ℚ)
      ∧ (6/10 : ℚ) ≤ exSearchHit.similarity)
    ∧ searchKnowledgeCapsules [] "neural networks" 5 (6/10) = [] :=
  ⟨(searchKnowledgeCapsules_spec exSearchDir "neural networks" 5 (6/10)).1 exSearchHit
      (by decide),
   (searchKnowledgeCapsules_spec [] "neural networks" 5 (6/10)).2.2.2 rfl⟩
